import Mathlib

/-!
Shallow embedding of the digital-human backend's task orchestration and
external job polling engine (backend/task_manager.py, backend/main.py,
backend/models.py, backend/services/runninghub_service.py,
backend/services/mega_tts3_service.py, backend/services/comfyui_service.py,
backend/services/ark_service.py), together with theorems settling the
frozen claims about it.
-/

/-- Enum LanguageEnum from models.py. -/
inductive LanguageEnum where
  | zh
  | en
deriving DecidableEq, Repr

/-- The string value of a LanguageEnum member (str enum). -/
def LanguageEnum.val : LanguageEnum → String
  | .zh => "zh"
  | .en => "en"

/-- Python LanguageEnum(s) constructor lookup: value string to member. -/
def languageOfValue (s : String) : Option LanguageEnum :=
  if s = "zh" then some .zh
  else if s = "en" then some .en
  else none

/-- Enum PlatformEnum from models.py. -/
inductive PlatformEnum where
  | tiktok
  | instagram
deriving DecidableEq, Repr

/-- The string value of a PlatformEnum member. -/
def PlatformEnum.val : PlatformEnum → String
  | .tiktok => "tiktok"
  | .instagram => "instagram"

/-- Python PlatformEnum(s) constructor lookup. -/
def platformOfValue (s : String) : Option PlatformEnum :=
  if s = "tiktok" then some .tiktok
  else if s = "instagram" then some .instagram
  else none

/-- Enum TaskStatus from models.py. -/
inductive TaskStatus where
  | pending
  | uploading
  | generating_script
  | generating_image
  | generating_audio
  | audio_ready
  | generating_video
  | completed
  | failed
deriving DecidableEq, Repr

/-- Enum TTSEngineEnum from models.py. -/
inductive TTSEngineEnum where
  | mega_tts3
deriving DecidableEq, Repr

/-- Enum DurationModeEnum from models.py. -/
inductive DurationModeEnum where
  | follow_audio
  | fixed
deriving DecidableEq, Repr

/-- Python DurationModeEnum(s) constructor lookup. -/
def durationModeOfValue (s : String) : Option DurationModeEnum :=
  if s = "follow_audio" then some .follow_audio
  else if s = "fixed" then some .fixed
  else none

/-- Enum AudioSourceEnum from models.py. -/
inductive AudioSourceEnum where
  | auto
  | existing_generated
deriving DecidableEq, Repr

/-- Enum ScriptModeEnum from models.py. -/
inductive ScriptModeEnum where
  | llm
  | manual
deriving DecidableEq, Repr

/-- Binary payloads (Python bytes), modelled as lists of byte values. -/
abbrev Bytes := List Nat

/-- The universe of values stored in TaskData attributes.  Python is
dynamically typed; this inductive covers every value shape the backend
stores into a task record (None, strings, ints, floats as rationals,
bools, lists of strings, the str-enums, and small string dicts). -/
inductive PyVal where
  | none
  | str (s : String)
  | int (n : Int)
  | rat (q : Rat)
  | bool (b : Bool)
  | strList (xs : List String)
  | status (s : TaskStatus)
  | lang (l : LanguageEnum)
  | script (m : ScriptModeEnum)
  | platform (p : PlatformEnum)
  | duration (d : DurationModeEnum)
  | tts (e : TTSEngineEnum)
  | audioSource (a : AudioSourceEnum)
  | dict (kvs : List (String × String))
deriving DecidableEq, Repr

/-- AppError from errors.py: a business exception with a code and message. -/
structure AppErr where
  code : String
  message : String
deriving DecidableEq, Repr

/-- String-keyed dictionary lookup (Python dict.get / attribute read):
the value under the first binding of the key. -/
def dictGet {β : Type} : List (String × β) → String → Option β
  | [], _ => none
  | kv :: rest, k => if kv.1 = k then some kv.2 else dictGet rest k

/-- Replace the value stored under an existing key, leaving all other
bindings alone (Python setattr / dict item assignment on a present
key). -/
def dictSetExisting {β : Type} (m : List (String × β)) (k : String) (v : β) :
    List (String × β) :=
  m.map (fun kv => if kv.1 = k then (kv.1, v) else kv)

/-- A task record: the attribute dictionary of one TaskData instance
(models.py).  Attributes are looked up and set by name, mirroring
Python's getattr/setattr used by TaskManager.update_task. -/
abbrev TaskRec := List (String × PyVal)

/-- Attribute read: first binding of the name (Python attribute lookup). -/
def lookupField (t : TaskRec) (k : String) : Option PyVal :=
  dictGet t k

/-- Python hasattr on a TaskData instance: the attribute exists. -/
def hasattrTask (t : TaskRec) (k : String) : Bool :=
  (lookupField t k).isSome

/-- Python setattr on a TaskData instance: replace the value stored
under an existing attribute name (never adds new names here, callers
guard with hasattr). -/
def setattrTask (t : TaskRec) (k : String) (v : PyVal) : TaskRec :=
  dictSetExisting t k v

/-- A fresh TaskData record with the field defaults of models.py,
as built by TaskManager.create_task. -/
def newTaskData (task_id : String) (video_provider : String) : TaskRec :=
  [ ("task_id", .str task_id)
  , ("status", .status .pending)
  , ("progress", .rat 0)
  , ("current_step", .str "")
  , ("error", .none)
  , ("error_code", .none)
  , ("scene_images", .strList [])
  , ("portrait_image", .none)
  , ("product_name", .str "")
  , ("core_selling_points", .str "")
  , ("language", .lang .zh)
  , ("script_mode", .script .manual)
  , ("voice_text", .str "")
  , ("person_prompt", .str "")
  , ("action_text", .str "")
  , ("image_prompt_fields", .none)
  , ("image_prompt_raw_response", .none)
  , ("image_prompt_generated_at", .none)
  , ("platform", .platform .tiktok)
  , ("tts_engine_used", .none)
  , ("final_audio_url", .none)
  , ("audio_duration_sec", .none)
  , ("duration_mode", .duration .follow_audio)
  , ("fixed_duration_sec", .none)
  , ("audio_source", .audioSource .auto)
  , ("video_provider", .str video_provider)
  , ("comfy_prompt_id", .none)
  , ("runninghub_audio_task_id", .none)
  , ("runninghub_video_task_id", .none)
  , ("aspect_ratio_applied", .none)
  , ("model_image_url", .none)
  , ("seedream_reference_image_url", .none)
  , ("audio_url", .none)
  , ("video_url", .none) ]

/-- TaskManager state: the in-memory task map plus the log of debug
snapshots written by _save_intermediate (one entry per write). -/
structure TMState where
  tasks : List (String × TaskRec)
  snapshots : List (String × TaskRec)
deriving Repr

/-- Dictionary lookup in the task map (self.tasks.get(task_id)). -/
def lookupTask (tasks : List (String × TaskRec)) (task_id : String) : Option TaskRec :=
  dictGet tasks task_id

/-- Replace the record stored under a task id in the task map. -/
def updateTaskMap (tasks : List (String × TaskRec)) (task_id : String) (t : TaskRec) :
    List (String × TaskRec) :=
  dictSetExisting tasks task_id t

/-- TaskManager.get_task. -/
def get_task (st : TMState) (task_id : String) : Option TaskRec :=
  lookupTask st.tasks task_id

/-- TaskManager._save_intermediate: re-reads the task and, when present,
writes one JSON debug snapshot of it (modelled as appending to the
snapshot log). -/
def save_intermediate (st : TMState) (task_id : String) : TMState :=
  match lookupTask st.tasks task_id with
  | none => st
  | some t => { st with snapshots := st.snapshots ++ [(task_id, t)] }

/-- TaskManager.create_task: uuid4 generates the fresh id (passed in as
a parameter here, since uuid generation is nondeterministic), a default
TaskData is inserted, and the id returned. -/
def create_task (fresh_id : String) (video_provider : String) (st : TMState) :
    String × TMState :=
  (fresh_id, { st with tasks := st.tasks ++ [(fresh_id, newTaskData fresh_id video_provider)] })

/-- The keyword-assignment loop inside TaskManager.update_task: each
keyword that names an existing attribute is assigned in order; keys
matching no attribute are skipped. -/
def applyKwargs (t : TaskRec) (kwargs : List (String × PyVal)) : TaskRec :=
  kwargs.foldl (fun acc kv =>
    if hasattrTask acc kv.1 then setattrTask acc kv.1 kv.2 else acc) t

/-- TaskManager.update_task: missing task id returns False; otherwise
each keyword that names an existing attribute is assigned (others are
ignored), one debug snapshot is written, and True is returned. -/
def update_task (st : TMState) (task_id : String) (kwargs : List (String × PyVal)) :
    Bool × TMState :=
  match lookupTask st.tasks task_id with
  | none => (false, st)
  | some t =>
      let t' := applyKwargs t kwargs
      let st' := { st with tasks := updateTaskMap st.tasks task_id t' }
      (true, save_intermediate st' task_id)

/-- TaskManager.delete_task. -/
def delete_task (st : TMState) (task_id : String) : Bool × TMState :=
  match lookupTask st.tasks task_id with
  | none => (false, st)
  | some _ => (true, { st with tasks := st.tasks.filter (fun kv => kv.1 ≠ task_id) })

/-- TaskManager._fail_task: the single failure path, writing status
FAILED, the step label, and the (code, message) error slot. -/
def fail_task (st : TMState) (task_id : String) (code : String) (message : String) :
    TMState :=
  (update_task st task_id
    [ ("status", .status .failed)
    , ("current_step", .str "fail")
    , ("error", .str message)
    , ("error_code", .str code) ]).2

/-- The nullable result bundle assembled by get_task_status in main.py
once audio or video is ready. -/
def resultBundle (t : TaskRec) : List (String × Option PyVal) :=
  [ ("video_url", lookupField t "video_url")
  , ("audio_url", lookupField t "audio_url")
  , ("model_image_url", lookupField t "model_image_url")
  , ("final_audio_url", lookupField t "final_audio_url")
  , ("audio_duration_sec", lookupField t "audio_duration_sec")
  , ("tts_engine_used", lookupField t "tts_engine_used")
  , ("audio_source", lookupField t "audio_source")
  , ("video_provider", lookupField t "video_provider")
  , ("aspect_ratio_applied", lookupField t "aspect_ratio_applied")
  , ("runninghub_audio_task_id", lookupField t "runninghub_audio_task_id")
  , ("runninghub_video_task_id", lookupField t "runninghub_video_task_id") ]

/-- TaskStatusResponse from models.py, as filled by the status route. -/
structure StatusResponse where
  task_id : String
  status : Option PyVal
  progress : Option PyVal
  current_step : Option PyVal
  result : Option (List (String × Option PyVal))
  error : Option PyVal
  error_code : Option PyVal
deriving Repr

/-- get_task_status route in main.py: 404 (none) for an unknown task,
otherwise a response whose result bundle is populated exactly when the
task status is a member of the list of AUDIO_READY and COMPLETED. -/
def get_task_status (st : TMState) (task_id : String) : Option StatusResponse :=
  match get_task st task_id with
  | none => none
  | some t =>
      let res :=
        if lookupField t "status" = some (.status .audio_ready) ∨
           lookupField t "status" = some (.status .completed) then
          some (resultBundle t)
        else
          Option.none
      some { task_id := task_id
           , status := lookupField t "status"
           , progress := lookupField t "progress"
           , current_step := lookupField t "current_step"
           , result := res
           , error := lookupField t "error"
           , error_code := lookupField t "error_code" }

/-- JSON values, the wire format of the RunningHub response envelopes. -/
inductive Json where
  | null
  | int (n : Int)
  | str (s : String)
  | bool (b : Bool)
  | arr (xs : List Json)
  | obj (kvs : List (String × Json))

/-- Dictionary get on a JSON object-as-list (Python dict.get). -/
def jget (kvs : List (String × Json)) (k : String) : Option Json :=
  dictGet kvs k

/-- isinstance(item, dict) for JSON values. -/
def Json.isObj : Json → Bool
  | .obj _ => true
  | _ => false

/-- The integer under a key when the stored JSON value is a number;
Python comparisons of body.get("code") with the int constants are False
for every non-int value, which this decode to Option captures. -/
def jgetInt (kvs : List (String × Json)) (k : String) : Option Int :=
  match jget kvs k with
  | some (.int n) => some n
  | _ => none

/-- A rough str() for scalar JSON fields, used only to format failure
messages. -/
def jshow : Option Json → String
  | some (.str s) => s
  | some (.int n) => toString n
  | some (.bool true) => "True"
  | some (.bool false) => "False"
  | some .null => "None"
  | some (.arr _) => "[...]"
  | some (.obj _) => "{...}"
  | none => "None"

/-- RunningHubService.RUNNING_CODES. -/
def RUNNING_CODES : List Int := [804, 813]

/-- RunningHubService.FAILED_CODE. -/
def FAILED_CODE : Int := 805

/-- The timeout error raised by wait_for_outputs. -/
def rhTimeoutErr (timeout_sec : Int) (task_id : String) : AppErr :=
  { code := "RUNNINGHUB_TASK_TIMEOUT"
  , message := "task timed out (" ++ toString timeout_sec ++ "s): taskId=" ++ task_id }

/-- The task-failed error raised by wait_for_outputs when the failure
envelope carries a failedReason dict: it reports node_name and
exception_message from it. -/
def rhTaskFailedErr (task_id : String) (node_name : Option Json)
    (exception_message : Option Json) : AppErr :=
  { code := "RUNNINGHUB_TASK_FAILED"
  , message := "task failed, taskId=" ++ task_id ++ ", node=" ++ jshow node_name ++
      ", message=" ++ jshow exception_message }

/-- The unrecoverable-status error for any unknown envelope code. -/
def rhStatusErr (task_id : String) (body : List (String × Json)) : AppErr :=
  { code := "RUNNINGHUB_TASK_STATUS_ERROR"
  , message := "unknown task status, taskId=" ++ task_id ++ ", msg=" ++ jshow (jget body "msg") }

/-- The malformed-success error when code is 0 but data is not a list. -/
def rhDataErr (task_id : String) : AppErr :=
  { code := "RUNNINGHUB_TASK_STATUS_ERROR"
  , message := "task returned success but data is malformed, taskId=" ++ task_id }

/-- Result of the wait_for_outputs loop: the output descriptor list on
success, a raised AppError, or still polling when the step budget
(fuel) runs out. -/
inductive WaitOutcome where
  | ok (outputs : List Json)
  | err (e : AppErr)
  | runningOut

/-- The deadline test performed at the top of every wait_for_outputs
iteration: only a configured deadline can have passed. -/
def deadlinePassed (deadline : Option Rat) (now : Rat) : Bool :=
  match deadline with
  | some d => decide (d ≤ now)
  | none => false

/-- The tri-state classification of one poll envelope inside the
wait_for_outputs loop body: success with outputs, still running, or a
raised AppError. -/
inductive PollStep where
  | outputs (xs : List Json)
  | stillRunning
  | raiseErr (e : AppErr)

/-- The single-shot classification of one query_outputs envelope
(the body of RunningHubService.wait_for_outputs after the deadline
check): code 0 succeeds with the dict items of the data array, the
running codes 804 and 813 mean poll again, code 805 fails with the
failedReason details, and any other code is an unrecoverable status
error. -/
def classifyPoll (task_id : String) (body : List (String × Json)) : PollStep :=
  let code := jgetInt body "code"
  if code = some 0 then
    match jget body "data" with
    | some (.arr items) => .outputs (items.filter Json.isObj)
    | _ => .raiseErr (rhDataErr task_id)
  else if code = some 804 ∨ code = some 813 then
    .stillRunning
  else if code = some FAILED_CODE then
    match jget body "data" with
    | some (.obj d) =>
        match jget d "failedReason" with
        | some (.obj fr) =>
            .raiseErr (rhTaskFailedErr task_id (jget fr "node_name") (jget fr "exception_message"))
        | _ => .raiseErr { code := "RUNNINGHUB_TASK_FAILED"
                         , message := "task failed, taskId=" ++ task_id }
    | _ => .raiseErr { code := "RUNNINGHUB_TASK_FAILED"
                     , message := "task failed, taskId=" ++ task_id }
  else
    .raiseErr (rhStatusErr task_id body)

/-- The polling loop of RunningHubService.wait_for_outputs.  polls i is
the envelope returned by the i-th query_outputs call; now is the
monotonic clock, advanced by the poll interval at each sleep; the
deadline is checked at the top of every iteration, before the poll.
fuel bounds the number of iterations modelled. -/
def waitLoop (task_id : String) (timeout_sec : Int) (polls : Nat → List (String × Json))
    (interval : Rat) (deadline : Option Rat) : Rat → Nat → Nat → WaitOutcome
  | _, _, 0 => .runningOut
  | now, i, fuel + 1 =>
      if deadlinePassed deadline now then
        .err (rhTimeoutErr timeout_sec task_id)
      else
        match classifyPoll task_id (polls i) with
        | .outputs xs => .ok xs
        | .raiseErr e => .err e
        | .stillRunning =>
            waitLoop task_id timeout_sec polls interval deadline (now + interval) (i + 1) fuel

/-- RunningHubService.wait_for_outputs: timeout_sec ≤ 0 means no
deadline; otherwise the deadline is the clock at entry plus
max 1 timeout_sec.  The entry clock is normalised to 0. -/
def wait_for_outputs (task_id : String) (timeout_sec : Int)
    (polls : Nat → List (String × Json)) (interval : Rat) (fuel : Nat) : WaitOutcome :=
  let deadline : Option Rat :=
    if timeout_sec ≤ 0 then none else some ((max 1 timeout_sec : Int) : Rat)
  waitLoop task_id timeout_sec polls interval deadline 0 0 fuel

/-- Python str.lower, over the character list. -/
def pyLower (s : String) : String :=
  String.mk (s.data.map Char.toLower)

/-- Python str.strip: drop whitespace from both ends. -/
def pyStrip (s : String) : String :=
  String.mk (((s.data.dropWhile Char.isWhitespace).reverse.dropWhile Char.isWhitespace).reverse)

/-- Python str.endswith, over the character lists. -/
def pyEndsWith (s suffix : String) : Bool :=
  List.isSuffixOf suffix.data s.data

/-- Python str.isdigit on an ASCII string: non-empty and all digits. -/
def pyIsDigit (cs : List Char) : Bool :=
  !cs.isEmpty && cs.all Char.isDigit

/-- Maximal digit runs of a character list, left to right: the matches
of the regular expression of one-or-more digits (re.findall). -/
def digitRunsAux : List Char → List Char → List (List Char)
  | [], acc => if acc.isEmpty then [] else [acc.reverse]
  | c :: rest, acc =>
      if c.isDigit then digitRunsAux rest (c :: acc)
      else if acc.isEmpty then digitRunsAux rest []
      else acc.reverse :: digitRunsAux rest []

/-- All maximal digit runs of a string's characters. -/
def digitRuns (cs : List Char) : List (List Char) :=
  digitRunsAux cs []

/-- Attempt to match the pattern of "/workflow/" followed by at least
one digit at the current position, returning the digit capture. -/
def matchWorkflowAt (cs : List Char) : Option (List Char) :=
  if cs.take 10 = "/workflow/".data then
    let ds := (cs.drop 10).takeWhile Char.isDigit
    if ds.isEmpty then none else some ds
  else none

/-- re.search for the workflow-URL pattern: first position where it
matches, returning the captured digits. -/
def searchWorkflow : List Char → Option (List Char)
  | [] => none
  | c :: rest =>
      match matchWorkflowAt (c :: rest) with
      | some ds => some ds
      | none => searchWorkflow rest

/-- RunningHubService._resolve_workflow_id: strip; empty fails config
error; all-digits is returned as is; a /workflow/<digits> URL yields
that capture; otherwise the last maximal digit run wins; a digit-free
string fails config error. -/
def resolve_workflow_id (workflow_id_or_url : String) : Except AppErr String :=
  let raw := pyStrip workflow_id_or_url
  if raw.data.isEmpty then
    .error { code := "RUNNINGHUB_CONFIG_ERROR", message := "workflowId not configured" }
  else if pyIsDigit raw.data then
    .ok raw
  else
    match searchWorkflow raw.data with
    | some ds => .ok (String.mk ds)
    | none =>
        match (digitRuns raw.data).getLast? with
        | some ds => .ok (String.mk ds)
        | none =>
            .error { code := "RUNNINGHUB_CONFIG_ERROR"
                   , message := "cannot parse workflowId: " ++ workflow_id_or_url }

/-- One RunningHub output descriptor as consumed by the pickers: the
dict fields fileType and fileUrl, each possibly absent. -/
structure RHOutput where
  fileType : Option String
  fileUrl : Option String
deriving DecidableEq, Repr

/-- str(output.get("fileType", "")).lower(). -/
def outFileType (o : RHOutput) : String :=
  pyLower (o.fileType.getD "")

/-- str(output.get("fileUrl", "")).lower(). -/
def outFileUrl (o : RHOutput) : String :=
  pyLower (o.fileUrl.getD "")

/-- The audio match test of pick_first_audio_output: declared file type
in the audio set, or URL ending in one of the audio extensions. -/
def audioMatch (o : RHOutput) : Bool :=
  ["mp3", "wav", "flac", "m4a", "ogg"].contains (outFileType o) ||
  [".mp3", ".wav", ".flac", ".m4a", ".ogg"].any (fun ext => pyEndsWith (outFileUrl o) ext)

/-- The video match test of pick_first_video_output. -/
def videoMatch (o : RHOutput) : Bool :=
  ["mp4", "mov", "webm", "mkv"].contains (outFileType o) ||
  [".mp4", ".mov", ".webm", ".mkv"].any (fun ext => pyEndsWith (outFileUrl o) ext)

/-- The scanning loop shared by both pickers: first output passing the
test. -/
def pickLoop (test : RHOutput → Bool) : List RHOutput → Option RHOutput
  | [] => none
  | o :: rest => if test o then some o else pickLoop test rest

/-- RunningHubService.pick_first_audio_output: first matching output,
else the single output when exactly one exists, else none. -/
def pick_first_audio_output (outputs : List RHOutput) : Option RHOutput :=
  match pickLoop audioMatch outputs with
  | some o => some o
  | none => if outputs.length = 1 then outputs.head? else none

/-- RunningHubService.pick_first_video_output: first matching output,
else none (no single-output fallback in the source). -/
def pick_first_video_output (outputs : List RHOutput) : Option RHOutput :=
  match pickLoop videoMatch outputs with
  | some o => some o
  | none => none

/-- ArkService.PLATFORM_IMAGE_ASPECT_RATIO_MAP, keyed by the platform
enum value strings. -/
def platformImageAspectMap : List (String × String) :=
  [("tiktok", "9:16"), ("instagram", "1:1")]

/-- The aspect-ratio derivation inside ArkService.generate_image:
dict.get on the platform map with the platform's value string (none
omits the field from the request body). -/
def arkAspectFor (platform_value : String) : Option String :=
  dictGet platformImageAspectMap platform_value

/-- The platform validation step of TaskManager.start_generation:
PlatformEnum(platform) or an INVALID_REQUEST AppError. -/
def start_generation_platform (platform : String) : Except AppErr PlatformEnum :=
  match platformOfValue platform with
  | some p => .ok p
  | none => .error { code := "INVALID_REQUEST", message := "invalid platform" }

/-- The composite image-stage aspect-ratio derivation: start_generation
validates the requested platform string into the enum stored on the
task, and the background image stage passes that enum to
ArkService.generate_image, which maps its value string through
PLATFORM_IMAGE_ASPECT_RATIO_MAP. -/
def image_stage_aspect (platform : String) : Except AppErr (Option String) :=
  (start_generation_platform platform).map (fun p => arkAspectFor p.val)

/-- The result dict of MegaTTS3Service.generate_audio on success. -/
structure MegaOk where
  audio_bytes : Bytes
  audio_filename : String
  rh_task_id : String
deriving Repr

/-- Environment of the audio stage: the configured default reference
audio (path configured and file readable, with its bytes), the
wall-clock seconds the submitted speech-cloning job takes (none means
it never completes), its eventual outcome, and the oracles for the
external duration probe and the object-storage upload. -/
structure MegaEnv where
  defaultReference : Option Bytes
  jobSeconds : Option Nat
  jobResult : Except AppErr MegaOk
  probedDuration : Bytes → Rat
  uploadedUrl : String

/-- The reference-audio resolution at the head of
MegaTTS3Service.generate_audio (service level): a caller-supplied
payload wins; otherwise the configured default is read; otherwise the
REQUIRED error is raised. -/
def megaResolveReference (defaultReference : Option Bytes)
    (reference_audio_bytes : Option Bytes) : Except AppErr Bytes :=
  match reference_audio_bytes with
  | some b => .ok b
  | none =>
      match defaultReference with
      | some d => .ok d
      | none => .error { code := "MEGA_TTS3_REFERENCE_AUDIO_REQUIRED"
                       , message := "reference audio is required for voice cloning" }

/-- Observable side effects of one TaskManager.generate_audio call:
whether the speech-cloning job coroutine was started (it performs the
remote upload, job creation and polling), whether the pending job was
cancelled, whether the drain done-callback was attached, and whether
the audio artifact was uploaded to object storage. -/
structure GAEffects where
  jobSubmitted : Bool
  cancelled : Bool
  drainAttached : Bool
  uploadedToStorage : Bool
deriving DecidableEq, Repr

/-- No external effect has happened yet. -/
def noEffects : GAEffects :=
  { jobSubmitted := false, cancelled := false, drainAttached := false
  , uploadedToStorage := false }

/-- The response dict of TaskManager.generate_audio on success. -/
structure GAResp where
  task_id : String
  audio_url : String
  audio_duration_sec : Rat
  tts_engine_used : TTSEngineEnum
  fallback_used : Bool
deriving Repr

/-- Overall behaviour of one generate_audio call: it returns (a value
or a raised AppError), or it blocks forever awaiting an unbounded job. -/
inductive GAOutcome where
  | ret (r : Except AppErr GAResp)
  | hangs

/-- TaskManager._drain_background_task: consumes the abandoned job's
eventual result or exception; no exception ever escapes the callback. -/
def drain_background_task : Except AppErr MegaOk → Option AppErr
  | .ok _ => none
  | .error _ => none

/-- The MEGA_TTS3_TIMEOUT error raised when the bounded wait expires. -/
def megaTimeoutErr (timeout_sec : Int) : AppErr :=
  { code := "MEGA_TTS3_TIMEOUT"
  , message := "MegaTTS3 timed out (over " ++ toString timeout_sec ++
      "s); set TTS_GENERATION_TIMEOUT_SEC to 0 to wait without bound" }

/-- The GENERATING_AUDIO transition written by generate_audio before
submitting the speech-cloning job. -/
def gaStartKwargs (language_enum : LanguageEnum) : List (String × PyVal) :=
  [ ("status", .status .generating_audio)
  , ("current_step", .str "generating audio")
  , ("progress", .rat 60)
  , ("language", .lang language_enum)
  , ("error", .none)
  , ("error_code", .none) ]

/-- Shared tail of generate_audio once the job has completed: an
AppError outcome hits the fail path and re-raises; success probes the
audio duration, uploads the artifact and transitions to AUDIO_READY. -/
def ga_finish (env : MegaEnv) (st2 : TMState) (task_id : String) :
    Except AppErr MegaOk → GAOutcome × TMState × GAEffects
  | .error e =>
      (.ret (.error e), fail_task st2 task_id e.code e.message,
       { jobSubmitted := true, cancelled := false, drainAttached := false
       , uploadedToStorage := false })
  | .ok r =>
      let audio_duration := env.probedDuration r.audio_bytes
      let audio_url := env.uploadedUrl
      let st3 := (update_task st2 task_id
        [ ("status", .status .audio_ready)
        , ("current_step", .str "audio ready")
        , ("progress", .rat 72)
        , ("audio_url", .str audio_url)
        , ("final_audio_url", .str audio_url)
        , ("audio_duration_sec", .rat audio_duration)
        , ("tts_engine_used", .tts .mega_tts3)
        , ("audio_source", .audioSource .existing_generated)
        , ("comfy_prompt_id", .str r.rh_task_id)
        , ("runninghub_audio_task_id", .str r.rh_task_id) ]).2
      (.ret (.ok { task_id := task_id
                 , audio_url := audio_url
                 , audio_duration_sec := audio_duration
                 , tts_engine_used := .mega_tts3
                 , fallback_used := false }), st3,
       { jobSubmitted := true, cancelled := false, drainAttached := false
       , uploadedToStorage := true })

/-- TaskManager.generate_audio, traced from the source: task lookup,
language resolution, optional voice-text override, script presence
check, the unconditional caller-side reference-audio check, the
GENERATING_AUDIO transition, then the bounded or unbounded wait on the
speech-cloning job. -/
def generate_audio (env : MegaEnv) (tts_generation_timeout_sec : Int)
    (st : TMState) (task_id : String)
    (language : Option String) (voice_text_override : Option String)
    (reference_audio_bytes : Option Bytes) :
    GAOutcome × TMState × GAEffects :=
  match get_task st task_id with
  | none =>
      (.ret (.error { code := "TASK_NOT_FOUND", message := "Task " ++ task_id ++ " not found" }),
       st, noEffects)
  | some task =>
      let taskLangVal : String :=
        match lookupField task "language" with
        | some (.lang l) => l.val
        | _ => LanguageEnum.zh.val
      let target_language : String :=
        match language with
        | some s => if s = "" then taskLangVal else s
        | none => taskLangVal
      match languageOfValue target_language with
      | none =>
          (.ret (.error { code := "INVALID_LANGUAGE"
                        , message := "unsupported language: " ++ target_language }),
           st, noEffects)
      | some language_enum =>
          let overrideStep : Except AppErr TMState :=
            match voice_text_override with
            | none => .ok st
            | some ov =>
                let patched := pyStrip ov
                if patched = "" then
                  .error { code := "MEGA_TTS3_FAILED"
                         , message := "edited script text must not be empty" }
                else
                  let script_mode : PyVal :=
                    match lookupField task "script_mode" with
                    | some (.script .llm) => .script .llm
                    | _ => .script .manual
                  .ok (update_task st task_id
                    [("voice_text", .str patched), ("script_mode", script_mode)]).2
          match overrideStep with
          | .error e => (.ret (.error e), st, noEffects)
          | .ok st1 =>
              let refreshed := (get_task st1 task_id).getD task
              let text : String :=
                pyStrip (match lookupField refreshed "voice_text" with
                 | some (.str s) => s
                 | _ => "")
              if text = "" then
                (.ret (.error { code := "MEGA_TTS3_FAILED"
                              , message := "task has no script yet; cannot generate audio" }),
                 st1, noEffects)
              else
                match reference_audio_bytes with
                | none =>
                    (.ret (.error { code := "MEGA_TTS3_REFERENCE_AUDIO_REQUIRED"
                                  , message := "please upload reference audio first" }),
                     st1, noEffects)
                | some _ =>
                    let st2 := (update_task st1 task_id (gaStartKwargs language_enum)).2
                    let timeout_sec := tts_generation_timeout_sec
                    if 0 < timeout_sec then
                      match env.jobSeconds with
                      | some d =>
                          if (d : Int) ≤ timeout_sec then
                            ga_finish env st2 task_id env.jobResult
                          else
                            let te := megaTimeoutErr timeout_sec
                            (.ret (.error te), fail_task st2 task_id te.code te.message,
                             { jobSubmitted := true, cancelled := true
                             , drainAttached := true, uploadedToStorage := false })
                      | none =>
                          let te := megaTimeoutErr timeout_sec
                          (.ret (.error te), fail_task st2 task_id te.code te.message,
                           { jobSubmitted := true, cancelled := true
                           , drainAttached := true, uploadedToStorage := false })
                    else
                      match env.jobSeconds with
                      | some _ => ga_finish env st2 task_id env.jobResult
                      | none =>
                          (.hangs, st2,
                           { jobSubmitted := true, cancelled := false
                           , drainAttached := false, uploadedToStorage := false })

/-- Outcome of the local comfy_runner run itself (the awaited
_run_predict call): declared output files, a timeout, or a failure. -/
inductive RunOutcome where
  | ok (output_files : List String)
  | timeout
  | fail (msg : String)
deriving DecidableEq, Repr

/-- A cached run in ComfyUIService._run_cache: the history is keyed by
the run directory holding the produced files. -/
structure RunEntry where
  run_dir : String
  files : List String
deriving DecidableEq, Repr

/-- ComfyUIService state: the staged-input table, the run cache, and
the set of per-run temporary directories currently existing on disk. -/
structure ComfyState where
  staged_files : List (String × Bytes)
  run_cache : List (String × RunEntry)
  fs_dirs : List String
deriving Repr

/-- ComfyUIService.queue_prompt: a fresh temporary run directory is
created, the staged inputs are materialised into it, and the run
executes under the hard timeout.  Success caches the run directory
under a fresh prompt id and returns the id; timeout raises
COMFY_QUEUE_TIMEOUT; any other failure raises COMFY_WORKFLOW_ERROR.
The finally block clears the staged-file table in every case; the run
directory itself is removed in none of them. -/
def queue_prompt (runOutcome : RunOutcome) (fresh_prompt_id : String)
    (fresh_run_dir : String) (st : ComfyState) : Except AppErr String × ComfyState :=
  let stDir := { st with fs_dirs := st.fs_dirs ++ [fresh_run_dir] }
  match runOutcome with
  | .ok files =>
      (.ok fresh_prompt_id,
       { stDir with
           run_cache := stDir.run_cache ++
             [(fresh_prompt_id, { run_dir := fresh_run_dir, files := files })]
         , staged_files := [] })
  | .timeout =>
      (.error { code := "COMFY_QUEUE_TIMEOUT", message := "local workflow execution timed out" },
       { stDir with staged_files := [] })
  | .fail msg =>
      (.error { code := "COMFY_WORKFLOW_ERROR"
              , message := "local workflow execution failed: " ++ msg },
       { stDir with staged_files := [] })

/-- ComfyUIService.cleanup_prompt: pop the cache entry for the prompt
id and, when one existed, delete its run directory from disk. -/
def cleanup_prompt (st : ComfyState) (prompt_id : String) : ComfyState :=
  match dictGet st.run_cache prompt_id with
  | none => st
  | some entry =>
      { st with
          run_cache := st.run_cache.filter (fun e => e.1 ≠ prompt_id)
        , fs_dirs := st.fs_dirs.filter (fun d => d ≠ entry.run_dir) }

/-- Concrete output descriptor with a png file type (no audio/video
match). -/
def pngOutput : RHOutput := { fileType := some "png", fileUrl := Option.none }

/-- Concrete output descriptor with an mp3 file type. -/
def mp3Output : RHOutput := { fileType := some "mp3", fileUrl := Option.none }

/-- A freshly created task record for the witness states. -/
def wTask : TaskRec := newTaskData "t1" "infinitetalk"

/-- The witness task after script generation stored a voice text. -/
def wTaskVT : TaskRec := setattrTask wTask "voice_text" (.str "hello")

/-- A one-task manager state whose task is still pending. -/
def wState : TMState := { tasks := [("t1", wTask)], snapshots := [] }

/-- A one-task manager state whose task holds a non-empty voice text. -/
def wStateVT : TMState := { tasks := [("t1", wTaskVT)], snapshots := [] }

/-- A concrete audio-stage environment in which a default reference
audio is configured and the speech-cloning job would succeed quickly. -/
def envW : MegaEnv :=
  { defaultReference := some [0]
  , jobSeconds := some 1
  , jobResult := .ok { audio_bytes := [2, 3], audio_filename := "out.flac", rh_task_id := "rh1" }
  , probedDuration := fun _ => 7
  , uploadedUrl := "https://tos/audio_t1.flac" }

/-- A concrete audio-stage environment whose job never completes. -/
def envHang : MegaEnv :=
  { defaultReference := Option.none
  , jobSeconds := Option.none
  , jobResult := .error { code := "MEGA_TTS3_FAILED", message := "unreached" }
  , probedDuration := fun _ => 0
  , uploadedUrl := "https://tos/unused" }

/-- A poll stream that immediately reports success with one dict item. -/
def pollsOk : Nat → List (String × Json) :=
  fun _ => [("code", .int 0), ("data", .arr [Json.obj [("fileType", .str "mp3")]])]

/-- A poll stream that always reports the running code 804. -/
def pollsRunning : Nat → List (String × Json) :=
  fun _ => [("code", .int 804)]

/-- A poll stream that reports the failure code 805 with a failedReason
dict. -/
def pollsFailed : Nat → List (String × Json) :=
  fun _ => [("code", .int 805)
           , ("data", .obj [("failedReason",
               .obj [("node_name", .str "33"), ("exception_message", .str "oom")])])]

/-- An empty local-runner service state. -/
def comfySt0 : ComfyState := { staged_files := [], run_cache := [], fs_dirs := [] }

/-- The local-runner state after a run that timed out in directory d1
under prompt id p1. -/
def comfyAfterTimeout : Except AppErr String × ComfyState :=
  queue_prompt .timeout "p1" "d1" comfySt0

/-- The local-runner state after a successful run in directory d1. -/
def comfyAfterOk : Except AppErr String × ComfyState :=
  queue_prompt (.ok ["out.mp4"]) "p1" "d1" comfySt0

/-- The error code of an Except result, when it is an error. -/
def exceptErrCode {α : Type} : Except AppErr α → Option String
  | .error e => some e.code
  | .ok _ => none

/-- The error code of a wait outcome, when one was raised. -/
def waitErrCode : WaitOutcome → Option String
  | .err e => some e.code
  | _ => none

/-- Looking a key up after dictSetExisting: the set key now holds the
new value when it existed; every other key is untouched. -/
theorem dictGet_set {β : Type} (m : List (String × β)) (k k' : String) (v : β) :
    dictGet (dictSetExisting m k v) k' =
      if k' = k then (dictGet m k).map (fun _ => v) else dictGet m k' := by
  induction m with
  | nil => by_cases h : k' = k <;> simp [dictGet, dictSetExisting, h]
  | cons kv rest ih =>
      obtain ⟨k0, v0⟩ := kv
      simp only [dictSetExisting, List.map_cons] at ih ⊢
      by_cases h1 : k0 = k
      · subst h1
        by_cases h2 : k' = k0
        · subst h2
          simp [dictGet]
        · have h2' : ¬ k0 = k' := fun h => h2 h.symm
          simp [dictGet, h2, h2', ih]
      · by_cases h2 : k0 = k'
        · subst h2
          simp [dictGet, h1]
        · simp [dictGet, h1, h2, ih]

/-- dictGet distributes over append, preferring the left map. -/
theorem dictGet_append_none {β : Type} (m l : List (String × β)) (k : String)
    (h : dictGet m k = none) : dictGet (m ++ l) k = dictGet l k := by
  induction m with
  | nil => rfl
  | cons kv rest ih =>
      by_cases hk : kv.1 = k
      · simp [dictGet, hk] at h
      · simp [dictGet, hk] at h ⊢
        exact ih h

/-- A key bound in the left map keeps its value under append. -/
theorem dictGet_append_some {β : Type} (m l : List (String × β)) (k : String) (v : β)
    (h : dictGet m k = some v) : dictGet (m ++ l) k = some v := by
  induction m with
  | nil => simp [dictGet] at h
  | cons kv rest ih =>
      by_cases hk : kv.1 = k
      · simp [dictGet, hk] at h ⊢; exact h
      · simp [dictGet, hk] at h ⊢
        exact ih h

/-- setattr preserves which attributes exist. -/
theorem hasattr_setattr (t : TaskRec) (k k' : String) (v : PyVal) :
    hasattrTask (setattrTask t k v) k' = hasattrTask t k' := by
  unfold hasattrTask lookupField setattrTask
  rw [dictGet_set]
  by_cases h : k' = k
  · subst h; cases dictGet t k' <;> simp
  · simp [h]

/-- Unfolding one step of the update_task keyword loop. -/
theorem applyKwargs_cons (t : TaskRec) (kv : String × PyVal)
    (rest : List (String × PyVal)) :
    applyKwargs t (kv :: rest) =
      applyKwargs (if hasattrTask t kv.1 then setattrTask t kv.1 kv.2 else t) rest := rfl

/-- The keyword loop preserves which attributes exist. -/
theorem hasattr_applyKwargs (kws : List (String × PyVal)) (t : TaskRec) (k : String) :
    hasattrTask (applyKwargs t kws) k = hasattrTask t k := by
  induction kws generalizing t with
  | nil => rfl
  | cons kv rest ih =>
      rw [applyKwargs_cons]
      by_cases h : hasattrTask t kv.1
      · simp [h, ih, hasattr_setattr]
      · simp [h, ih]

/-- Attributes not named by any keyword are unchanged by the loop. -/
theorem lookupField_applyKwargs_not_mem (kws : List (String × PyVal)) (t : TaskRec)
    (k : String) (hk : k ∉ kws.map Prod.fst) :
    lookupField (applyKwargs t kws) k = lookupField t k := by
  induction kws generalizing t with
  | nil => rfl
  | cons kv rest ih =>
      have hk1 : k ≠ kv.1 := by
        intro h; exact hk (by simp [h])
      have hkr : k ∉ rest.map Prod.fst := by
        intro h; exact hk (by simp [h])
      rw [applyKwargs_cons]
      by_cases h : hasattrTask t kv.1
      · rw [if_pos h, ih _ hkr]
        unfold lookupField setattrTask
        rw [dictGet_set, if_neg hk1]
      · rw [if_neg h, ih _ hkr]

/-- With distinct keyword keys, a keyword naming an existing attribute
ends holding its value, and one naming no attribute stays absent. -/
theorem lookupField_applyKwargs_mem (kws : List (String × PyVal)) (t : TaskRec)
    (kv : String × PyVal) (hnd : (kws.map Prod.fst).Nodup) (hmem : kv ∈ kws) :
    lookupField (applyKwargs t kws) kv.1 =
      if hasattrTask t kv.1 then some kv.2 else none := by
  induction kws generalizing t with
  | nil => cases hmem
  | cons kv0 rest ih =>
      have hnd' : (rest.map Prod.fst).Nodup := (List.nodup_cons.mp (by simpa using hnd)).2
      rcases List.mem_cons.mp hmem with heq | hrest
      · subst heq
        have hnot : kv.1 ∉ rest.map Prod.fst :=
          (List.nodup_cons.mp (by simpa using hnd)).1
        rw [applyKwargs_cons]
        by_cases h : hasattrTask t kv.1
        · rw [if_pos h, lookupField_applyKwargs_not_mem _ _ _ hnot]
          unfold lookupField setattrTask
          rw [dictGet_set, if_pos rfl, if_pos h]
          have h' : (dictGet t kv.1).isSome = true := h
          obtain ⟨w, hw⟩ := Option.isSome_iff_exists.mp h'
          rw [hw]
          rfl
        · rw [if_neg h, lookupField_applyKwargs_not_mem _ _ _ hnot, if_neg h]
          have h' : dictGet t kv.1 = none := by
            have hb := h
            unfold hasattrTask lookupField at hb
            cases hc : dictGet t kv.1 with
            | none => rfl
            | some w => rw [hc] at hb; simp at hb
          exact h'
      · rw [applyKwargs_cons]
        by_cases h : hasattrTask t kv0.1
        · rw [if_pos h, ih _ hnd' hrest, hasattr_setattr]
        · rw [if_neg h, ih _ hnd' hrest]

/-- _save_intermediate never changes the task map. -/
theorem save_intermediate_tasks (st : TMState) (task_id : String) :
    (save_intermediate st task_id).tasks = st.tasks := by
  unfold save_intermediate
  cases lookupTask st.tasks task_id <;> rfl

/-- _save_intermediate on a present task writes exactly one snapshot. -/
theorem save_intermediate_snapshots (st : TMState) (task_id : String) (t : TaskRec)
    (h : lookupTask st.tasks task_id = some t) :
    (save_intermediate st task_id).snapshots = st.snapshots ++ [(task_id, t)] := by
  unfold save_intermediate
  rw [h]

/-- update_task on a present task: the stored record is the keyword
fold, one snapshot is written, and True is returned. -/
theorem update_task_found (st : TMState) (task_id : String) (t : TaskRec)
    (kwargs : List (String × PyVal)) (h : lookupTask st.tasks task_id = some t) :
    update_task st task_id kwargs =
      (true, save_intermediate
        { st with tasks := updateTaskMap st.tasks task_id (applyKwargs t kwargs) } task_id) := by
  unfold update_task
  rw [h]

/-- update_task on a missing task id: False, state unchanged. -/
theorem update_task_missing (st : TMState) (task_id : String)
    (kwargs : List (String × PyVal)) (h : lookupTask st.tasks task_id = none) :
    update_task st task_id kwargs = (false, st) := by
  unfold update_task
  rw [h]

/-- C1: for every task present in the task map, the status query
returns a response whose result bundle is non-null exactly when the
task status is AUDIO_READY or COMPLETED; for every other status the
result field of the status response is null. -/
theorem C1_status_result_iff (st : TMState) (task_id : String) (t : TaskRec)
    (h : get_task st task_id = some t) :
    ∃ r, get_task_status st task_id = some r ∧
      ((r.result ≠ Option.none) ↔
        (lookupField t "status" = some (.status .audio_ready) ∨
         lookupField t "status" = some (.status .completed))) := by
  unfold get_task_status
  rw [h]
  refine ⟨_, rfl, ?_⟩
  by_cases hP : lookupField t "status" = some (.status .audio_ready) ∨
      lookupField t "status" = some (.status .completed)
  · simp [hP]
  · simp [hP]

/-- Witness for C1 at a concrete one-task state whose task is pending. -/
theorem C1_status_result_iff_witness :
    get_task wState "t1" = some wTask ∧
    (∃ r, get_task_status wState "t1" = some r ∧
      ((r.result ≠ Option.none) ↔
        (lookupField wTask "status" = some (.status .audio_ready) ∨
         lookupField wTask "status" = some (.status .completed)))) :=
  ⟨rfl, C1_status_result_iff wState "t1" wTask rfl⟩

/-- C8: the image stage derives the aspect ratio from the requested
platform: tiktok gives 9:16, instagram gives 1:1, and any other
platform string fails with INVALID_REQUEST at start_generation. -/
theorem C8_platform_aspect_mapping :
    image_stage_aspect "tiktok" = .ok (some "9:16") ∧
    image_stage_aspect "instagram" = .ok (some "1:1") ∧
    ∀ s, s ≠ "tiktok" → s ≠ "instagram" →
      image_stage_aspect s =
        .error { code := "INVALID_REQUEST", message := "invalid platform" } := by
  refine ⟨rfl, rfl, ?_⟩
  intro s h1 h2
  simp [image_stage_aspect, start_generation_platform, platformOfValue, h1, h2, Except.map]

/-- Witness for C8 at the platform string youtube. -/
theorem C8_platform_aspect_mapping_witness :
    image_stage_aspect "youtube" =
      .error { code := "INVALID_REQUEST", message := "invalid platform" } :=
  C8_platform_aspect_mapping.2.2 "youtube" (by decide) (by decide)

/-- C4 counterexample: the workflow resolver maps wf-123456-v2 to the
last digit run 2, not to 123456 as the claim states. -/
theorem C4_resolver_counterexample :
    resolve_workflow_id "wf-123456-v2" = Except.ok "2" ∧
    resolve_workflow_id "wf-123456-v2" ≠ Except.ok "123456" := by
  constructor
  · rfl
  · intro h
    have h2 : resolve_workflow_id "wf-123456-v2" = Except.ok "2" := rfl
    rw [h2] at h
    exact absurd (Except.ok.inj h) (by decide)

/-- takeWhile isDigit of a digit-free character list is empty. -/
theorem takeWhile_digits_nil (cs : List Char) (h : ∀ c ∈ cs, ¬ c.isDigit = true) :
    cs.takeWhile Char.isDigit = [] := by
  cases cs with
  | nil => rfl
  | cons c rest =>
      have hc := h c (by simp)
      simp [List.takeWhile_cons, hc]

/-- The workflow-URL pattern cannot match inside a digit-free string. -/
theorem matchWorkflowAt_none (cs : List Char) (h : ∀ c ∈ cs, ¬ c.isDigit = true) :
    matchWorkflowAt cs = none := by
  unfold matchWorkflowAt
  by_cases ht : cs.take 10 = "/workflow/".data
  · rw [if_pos ht]
    have hdrop : ∀ c ∈ cs.drop 10, ¬ c.isDigit = true :=
      fun c hc => h c (List.mem_of_mem_drop hc)
    rw [takeWhile_digits_nil _ hdrop]
    rfl
  · rw [if_neg ht]

/-- re.search for the workflow pattern fails on a digit-free string. -/
theorem searchWorkflow_none (cs : List Char) (h : ∀ c ∈ cs, ¬ c.isDigit = true) :
    searchWorkflow cs = none := by
  induction cs with
  | nil => rfl
  | cons c rest ih =>
      unfold searchWorkflow
      rw [matchWorkflowAt_none _ h]
      exact ih (fun c' hc' => h c' (List.mem_cons_of_mem _ hc'))

/-- A digit-free string has no digit runs. -/
theorem digitRunsAux_nil (cs : List Char) (h : ∀ c ∈ cs, ¬ c.isDigit = true) :
    digitRunsAux cs [] = [] := by
  induction cs with
  | nil => rfl
  | cons c rest ih =>
      have hc := h c (by simp)
      unfold digitRunsAux
      rw [if_neg hc]
      simp only [List.isEmpty_nil, if_true]
      exact ih (fun c' hc' => h c' (by simp [hc']))

/-- str.isdigit is false on a digit-free string. -/
theorem pyIsDigit_false (cs : List Char) (h : ∀ c ∈ cs, ¬ c.isDigit = true) :
    pyIsDigit cs = false := by
  cases cs with
  | nil => rfl
  | cons c rest =>
      have hc := h c (by simp)
      simp [pyIsDigit, hc]

/-- C4 amended: the URL form and the raw digit form resolve to 123456,
but the embedded-digit form wf-123456-v2 resolves to the LAST digit
run, which is 2; a string whose trimmed form contains no digit fails
with the RUNNINGHUB_CONFIG_ERROR code. -/
theorem C4_resolver_amended :
    resolve_workflow_id "https://x/workflow/123456" = Except.ok "123456" ∧
    resolve_workflow_id "123456" = Except.ok "123456" ∧
    resolve_workflow_id "wf-123456-v2" = Except.ok "2" ∧
    ∀ s : String, (∀ c ∈ (pyStrip s).data, ¬ c.isDigit = true) →
      exceptErrCode (resolve_workflow_id s) = some "RUNNINGHUB_CONFIG_ERROR" := by
  refine ⟨rfl, rfl, rfl, ?_⟩
  intro s h
  by_cases he : (pyStrip s).data.isEmpty
  · simp [resolve_workflow_id, he, exceptErrCode]
  · simp [resolve_workflow_id, he, pyIsDigit_false _ h, searchWorkflow_none _ h,
      digitRuns, digitRunsAux_nil _ h, exceptErrCode]

/-- Witness for C4 amended at the digit-free string abc. -/
theorem C4_resolver_amended_witness :
    exceptErrCode (resolve_workflow_id "abc") = some "RUNNINGHUB_CONFIG_ERROR" :=
  C4_resolver_amended.2.2.2 "abc" (by decide)

/-- The picker scan loop is exactly first-match search. -/
theorem pickLoop_eq_find (test : RHOutput → Bool) (l : List RHOutput) :
    pickLoop test l = l.find? test := by
  induction l with
  | nil => rfl
  | cons o rest ih =>
      cases h : test o with
      | true => simp [pickLoop, h, List.find?_cons_of_pos, ih]
      | false => simp [pickLoop, h, List.find?_cons_of_neg, ih]

/-- C5 counterexample: the video picker returns no match for a single
non-matching output, instead of returning that single output as the
claim states for both pickers. -/
theorem C5_picker_counterexample :
    pick_first_video_output [pngOutput] = none ∧
    videoMatch pngOutput = false ∧
    [pngOutput].length = 1 := by
  exact ⟨rfl, rfl, rfl⟩

/-- C5 amended: the audio picker returns the first output matching the
audio type/extension heuristic, falls back to the single output when
exactly one exists and none match, and returns none otherwise; the
video picker returns the first match and none otherwise, with no
single-output fallback; for a png then mp3 output list the audio
picker picks the mp3 output. -/
theorem C5_pickers_amended :
    (∀ outs o, outs.find? audioMatch = some o → pick_first_audio_output outs = some o) ∧
    (∀ o, audioMatch o = false → pick_first_audio_output [o] = some o) ∧
    (∀ outs, outs.find? audioMatch = none → outs.length ≠ 1 →
      pick_first_audio_output outs = none) ∧
    (∀ outs o, outs.find? videoMatch = some o → pick_first_video_output outs = some o) ∧
    (∀ outs, outs.find? videoMatch = none → pick_first_video_output outs = none) ∧
    pick_first_audio_output [pngOutput, mp3Output] = some mp3Output := by
  refine ⟨?_, ?_, ?_, ?_, ?_, rfl⟩
  · intro outs o h
    unfold pick_first_audio_output
    rw [pickLoop_eq_find, h]
  · intro o h
    unfold pick_first_audio_output
    rw [pickLoop_eq_find]
    simp [List.find?, h]
  · intro outs h hlen
    unfold pick_first_audio_output
    rw [pickLoop_eq_find, h]
    simp [hlen]
  · intro outs o h
    unfold pick_first_video_output
    rw [pickLoop_eq_find, h]
  · intro outs h
    unfold pick_first_video_output
    rw [pickLoop_eq_find, h]

/-- Witness for C5 amended: the audio fallback accepts a lone png
output, the video picker rejects it. -/
theorem C5_pickers_amended_witness :
    pick_first_audio_output [pngOutput] = some pngOutput ∧
    pick_first_video_output [pngOutput] = none :=
  ⟨C5_pickers_amended.2.1 pngOutput (by rfl),
   C5_pickers_amended.2.2.2.2.1 [pngOutput] (by rfl)⟩

/-- C9: update_task on a present task assigns exactly the keywords
that name existing attributes (keyword keys are distinct, as Python
kwargs are), leaves every attribute not named in the update and every
other task unchanged, silently ignores keys matching no attribute,
returns True and writes one debug snapshot; for a missing task id it
returns False and the state is unchanged. -/
theorem C9_update_task_frame (st : TMState) (task_id : String) (t : TaskRec)
    (kwargs : List (String × PyVal))
    (h : lookupTask st.tasks task_id = some t)
    (hnd : (kwargs.map Prod.fst).Nodup) :
    (update_task st task_id kwargs).1 = true ∧
    lookupTask (update_task st task_id kwargs).2.tasks task_id =
      some (applyKwargs t kwargs) ∧
    (∀ kv ∈ kwargs, hasattrTask t kv.1 = true →
      lookupField (applyKwargs t kwargs) kv.1 = some kv.2) ∧
    (∀ kv ∈ kwargs, hasattrTask t kv.1 = false →
      lookupField (applyKwargs t kwargs) kv.1 = none) ∧
    (∀ k, k ∉ kwargs.map Prod.fst →
      lookupField (applyKwargs t kwargs) k = lookupField t k) ∧
    (∀ tid', tid' ≠ task_id →
      lookupTask (update_task st task_id kwargs).2.tasks tid' = lookupTask st.tasks tid') ∧
    (update_task st task_id kwargs).2.snapshots.length = st.snapshots.length + 1 ∧
    (∀ tid₂, lookupTask st.tasks tid₂ = none →
      update_task st tid₂ kwargs = (false, st)) := by
  have hd : dictGet st.tasks task_id = some t := h
  have hu := update_task_found st task_id t kwargs h
  have htasks : (update_task st task_id kwargs).2.tasks =
      updateTaskMap st.tasks task_id (applyKwargs t kwargs) := by
    rw [hu]
    exact save_intermediate_tasks _ _
  have hlook : lookupTask (updateTaskMap st.tasks task_id (applyKwargs t kwargs)) task_id =
      some (applyKwargs t kwargs) := by
    unfold lookupTask updateTaskMap
    rw [dictGet_set, if_pos rfl, hd]
    rfl
  refine ⟨by rw [hu], ?_, ?_, ?_, ?_, ?_, ?_, ?_⟩
  · rw [htasks]
    exact hlook
  · intro kv hkv hattr
    rw [lookupField_applyKwargs_mem kwargs t kv hnd hkv, if_pos hattr]
  · intro kv hkv hattr
    rw [lookupField_applyKwargs_mem kwargs t kv hnd hkv,
      if_neg (by rw [hattr]; exact Bool.false_ne_true)]
  · intro k hk
    exact lookupField_applyKwargs_not_mem kwargs t k hk
  · intro tid' htid'
    rw [htasks]
    unfold lookupTask updateTaskMap
    rw [dictGet_set, if_neg htid']
  · rw [hu]
    have hst' : lookupTask (updateTaskMap st.tasks task_id (applyKwargs t kwargs)) task_id =
        some (applyKwargs t kwargs) := hlook
    rw [save_intermediate_snapshots _ _ _ hst']
    simp
  · intro tid₂ h₂
    exact update_task_missing st tid₂ kwargs h₂

/-- Witness for C9 at a concrete state, with one known and one unknown
keyword. -/
theorem C9_update_task_frame_witness :
    (update_task wState "t1" [("voice_text", PyVal.str "x"), ("bogus", PyVal.int 1)]).1 = true ∧
    (update_task wState "t1"
      [("voice_text", PyVal.str "x"), ("bogus", PyVal.int 1)]).2.snapshots.length = 1 :=
  have hth := C9_update_task_frame wState "t1" wTask
    [("voice_text", PyVal.str "x"), ("bogus", PyVal.int 1)] rfl (by decide)
  ⟨hth.1, hth.2.2.2.2.2.2.1⟩

/-- C10: create_task with a fresh id (uuid4 collision-freedom is the
freshness hypothesis) returns that id; the stored task has the id as
task_id, status PENDING, progress 0, empty current_step and
voice_text, and null error and error_code; every other task is
unchanged. -/
theorem C10_create_task_fresh (st : TMState) (fresh_id vp : String)
    (hfresh : lookupTask st.tasks fresh_id = none) :
    (create_task fresh_id vp st).1 = fresh_id ∧
    get_task (create_task fresh_id vp st).2 fresh_id = some (newTaskData fresh_id vp) ∧
    lookupField (newTaskData fresh_id vp) "task_id" = some (.str fresh_id) ∧
    lookupField (newTaskData fresh_id vp) "status" = some (.status .pending) ∧
    lookupField (newTaskData fresh_id vp) "progress" = some (.rat 0) ∧
    lookupField (newTaskData fresh_id vp) "current_step" = some (.str "") ∧
    lookupField (newTaskData fresh_id vp) "voice_text" = some (.str "") ∧
    lookupField (newTaskData fresh_id vp) "error" = some .none ∧
    lookupField (newTaskData fresh_id vp) "error_code" = some .none ∧
    (∀ tid, tid ≠ fresh_id →
      get_task (create_task fresh_id vp st).2 tid = get_task st tid) := by
  have hd : dictGet st.tasks fresh_id = none := hfresh
  refine ⟨rfl, ?_, rfl, rfl, rfl, rfl, rfl, rfl, rfl, ?_⟩
  · show lookupTask (st.tasks ++ [(fresh_id, newTaskData fresh_id vp)]) fresh_id = _
    unfold lookupTask
    rw [dictGet_append_none _ _ _ hd]
    simp [dictGet]
  · intro tid htid
    show lookupTask (st.tasks ++ [(fresh_id, newTaskData fresh_id vp)]) tid = _
    unfold lookupTask get_task
    cases hc : dictGet st.tasks tid with
    | some v =>
        rw [dictGet_append_some _ _ _ _ hc]
        exact hc.symm
    | none =>
        rw [dictGet_append_none _ _ _ hc]
        have hne : fresh_id ≠ tid := Ne.symm htid
        show dictGet [(fresh_id, newTaskData fresh_id vp)] tid = dictGet st.tasks tid
        rw [hc]
        simp [dictGet, hne]

/-- Witness for C10 at a concrete one-task state and the fresh id t2. -/
theorem C10_create_task_fresh_witness :
    (create_task "t2" "infinitetalk" wState).1 = "t2" ∧
    get_task (create_task "t2" "infinitetalk" wState).2 "t2" =
      some (newTaskData "t2" "infinitetalk") :=
  have hth := C10_create_task_fresh wState "t2" "infinitetalk" rfl
  ⟨hth.1, hth.2.1⟩

/-- One unfolding step of the wait loop at positive fuel. -/
theorem waitLoop_succ (tid : String) (ts : Int) (polls : Nat → List (String × Json))
    (interval : Rat) (deadline : Option Rat) (now : Rat) (i fuel : Nat) :
    waitLoop tid ts polls interval deadline now i (fuel + 1) =
      if deadlinePassed deadline now then .err (rhTimeoutErr ts tid)
      else
        match classifyPoll tid (polls i) with
        | .outputs xs => .ok xs
        | .raiseErr e => .err e
        | .stillRunning =>
            waitLoop tid ts polls interval deadline (now + interval) (i + 1) fuel := rfl

/-- A code-0 envelope with a data array classifies as success with its
dict items. -/
theorem classifyPoll_success (tid : String) (body : List (String × Json))
    (items : List Json) (hcode : jgetInt body "code" = some 0)
    (hdata : jget body "data" = some (.arr items)) :
    classifyPoll tid body = .outputs (items.filter Json.isObj) := by
  simp [classifyPoll, hcode, hdata]

/-- A running-code envelope classifies as still running. -/
theorem classifyPoll_running (tid : String) (body : List (String × Json))
    (hcode : jgetInt body "code" = some 804 ∨ jgetInt body "code" = some 813) :
    classifyPoll tid body = .stillRunning := by
  rcases hcode with h | h <;> simp [classifyPoll, h]

/-- A code-805 envelope with a failedReason dict classifies as the
task-failed error carrying node_name and exception_message. -/
theorem classifyPoll_failed (tid : String) (body d fr : List (String × Json))
    (hcode : jgetInt body "code" = some 805)
    (hdata : jget body "data" = some (.obj d))
    (hfr : jget d "failedReason" = some (.obj fr)) :
    classifyPoll tid body =
      .raiseErr (rhTaskFailedErr tid (jget fr "node_name") (jget fr "exception_message")) := by
  simp [classifyPoll, hcode, hdata, hfr, FAILED_CODE]

/-- Any other envelope code classifies as the unrecoverable status
error. -/
theorem classifyPoll_unknown (tid : String) (body : List (String × Json))
    (h0 : jgetInt body "code" ≠ some 0)
    (h804 : jgetInt body "code" ≠ some 804)
    (h813 : jgetInt body "code" ≠ some 813)
    (h805 : jgetInt body "code" ≠ some 805) :
    classifyPoll tid body = .raiseErr (rhStatusErr tid body) := by
  simp [classifyPoll, h0, h804, h813, h805, FAILED_CODE]

/-- Every error the classification itself raises carries one of the two
non-timeout codes. -/
theorem classifyPoll_err_code (tid : String) (body : List (String × Json)) (e : AppErr)
    (h : classifyPoll tid body = .raiseErr e) :
    e.code = "RUNNINGHUB_TASK_STATUS_ERROR" ∨ e.code = "RUNNINGHUB_TASK_FAILED" := by
  simp only [classifyPoll] at h
  split at h
  · split at h
    · simp at h
    · cases h; left; rfl
  · split at h
    · simp at h
    · split at h
      · split at h
        · split at h
          · cases h; right; rfl
          · cases h; right; rfl
        · cases h; right; rfl
      · cases h; left; rfl

/-- With no deadline configured, the loop can never raise the timeout
error. -/
theorem waitLoop_no_timeout (tid : String) (ts : Int) (polls : Nat → List (String × Json))
    (interval : Rat) (fuel : Nat) :
    ∀ (now : Rat) (i : Nat),
      waitErrCode (waitLoop tid ts polls interval none now i fuel) ≠
        some "RUNNINGHUB_TASK_TIMEOUT" := by
  induction fuel with
  | zero => intro now i; simp [waitLoop, waitErrCode]
  | succ n ih =>
      intro now i
      rw [waitLoop_succ, show deadlinePassed none now = false from rfl]
      simp only [Bool.false_eq_true, if_false]
      cases hc : classifyPoll tid (polls i) with
      | outputs xs => simp [waitErrCode]
      | stillRunning => exact ih _ _
      | raiseErr e =>
          have hcode := classifyPoll_err_code tid (polls i) e hc
          simp only [waitErrCode]
          intro hcontra
          rcases hcode with hx | hx <;>
            { rw [Option.some_inj] at hcontra; rw [hcontra] at hx; simp at hx }

/-- C2: wait_for_outputs loops single-shot polls: code 0 returns the
output descriptors, the running codes 804 and 813 sleep one fixed poll
interval and poll again, code 805 raises the task-failed error with
node_name and exception_message from data.failedReason, any other code
raises the unrecoverable status error; timeout_sec ≤ 0 means no
deadline (the timeout error can never be raised), and for a positive
timeout the deadline (entry time plus max 1 timeout_sec) is checked at
the top of every iteration before polling or sleeping again, raising
RUNNINGHUB_TASK_TIMEOUT once it has passed, whatever the backend would
have answered. -/
theorem C2_wait_for_outputs (tid : String) :
    (∀ (timeout_sec : Int) (polls : Nat → List (String × Json)) (interval : Rat)
        (fuel : Nat) (items : List Json),
      jgetInt (polls 0) "code" = some 0 →
      jget (polls 0) "data" = some (.arr items) →
      wait_for_outputs tid timeout_sec polls interval (fuel + 1) =
        .ok (items.filter Json.isObj)) ∧
    (∀ (timeout_sec : Int) (polls : Nat → List (String × Json)) (interval : Rat)
        (deadline : Option Rat) (now : Rat) (i fuel : Nat),
      (jgetInt (polls i) "code" = some 804 ∨ jgetInt (polls i) "code" = some 813) →
      deadlinePassed deadline now = false →
      waitLoop tid timeout_sec polls interval deadline now i (fuel + 1) =
        waitLoop tid timeout_sec polls interval deadline (now + interval) (i + 1) fuel) ∧
    (∀ (timeout_sec : Int) (polls : Nat → List (String × Json)) (interval : Rat)
        (deadline : Option Rat) (now : Rat) (i fuel : Nat)
        (d fr : List (String × Json)),
      jgetInt (polls i) "code" = some 805 →
      jget (polls i) "data" = some (.obj d) →
      jget d "failedReason" = some (.obj fr) →
      deadlinePassed deadline now = false →
      waitLoop tid timeout_sec polls interval deadline now i (fuel + 1) =
        .err (rhTaskFailedErr tid (jget fr "node_name") (jget fr "exception_message"))) ∧
    (∀ (timeout_sec : Int) (polls : Nat → List (String × Json)) (interval : Rat)
        (deadline : Option Rat) (now : Rat) (i fuel : Nat),
      jgetInt (polls i) "code" ≠ some 0 →
      jgetInt (polls i) "code" ≠ some 804 →
      jgetInt (polls i) "code" ≠ some 813 →
      jgetInt (polls i) "code" ≠ some 805 →
      deadlinePassed deadline now = false →
      waitLoop tid timeout_sec polls interval deadline now i (fuel + 1) =
        .err (rhStatusErr tid (polls i))) ∧
    (∀ (timeout_sec : Int) (polls : Nat → List (String × Json)) (interval : Rat)
        (fuel : Nat),
      timeout_sec ≤ 0 →
      waitErrCode (wait_for_outputs tid timeout_sec polls interval fuel) ≠
        some "RUNNINGHUB_TASK_TIMEOUT") ∧
    (∀ (timeout_sec : Int) (polls : Nat → List (String × Json)) (interval : Rat)
        (dl now : Rat) (i fuel : Nat),
      dl ≤ now →
      waitLoop tid timeout_sec polls interval (some dl) now i (fuel + 1) =
        .err (rhTimeoutErr timeout_sec tid)) ∧
    (∀ (timeout_sec : Int) (polls : Nat → List (String × Json)) (interval : Rat)
        (fuel : Nat),
      0 < timeout_sec →
      wait_for_outputs tid timeout_sec polls interval fuel =
        waitLoop tid timeout_sec polls interval
          (some ((max 1 timeout_sec : Int) : Rat)) 0 0 fuel) := by
  refine ⟨?_, ?_, ?_, ?_, ?_, ?_, ?_⟩
  · intro ts polls interval fuel items hcode hdata
    have hcl := classifyPoll_success tid (polls 0) items hcode hdata
    by_cases hts : ts ≤ 0
    · simp only [wait_for_outputs, if_pos hts]
      rw [waitLoop_succ, show deadlinePassed none 0 = false from rfl]
      simp [hcl]
    · simp only [wait_for_outputs, if_neg hts]
      have hdl : deadlinePassed (some ((max 1 ts : Int) : Rat)) 0 = false := by
        simp only [deadlinePassed, decide_eq_false_iff_not]
        intro hcontra
        have h1 : (1 : Int) ≤ max 1 ts := le_max_left 1 ts
        have h1' : ((1 : Int) : Rat) ≤ ((max 1 ts : Int) : Rat) := Int.cast_le.mpr h1
        
        have : ((1 : Int) : Rat) ≤ 0 := le_trans h1' hcontra
        norm_num at this
      rw [waitLoop_succ, hdl]
      simp [hcl]
  · intro ts polls interval deadline now i fuel hcode hdl
    rw [waitLoop_succ, hdl]
    simp [classifyPoll_running tid (polls i) hcode]
  · intro ts polls interval deadline now i fuel d fr hcode hdata hfr hdl
    rw [waitLoop_succ, hdl]
    simp [classifyPoll_failed tid (polls i) d fr hcode hdata hfr]
  · intro ts polls interval deadline now i fuel h0 h804 h813 h805 hdl
    rw [waitLoop_succ, hdl]
    simp [classifyPoll_unknown tid (polls i) h0 h804 h813 h805]
  · intro ts polls interval fuel hts
    simp only [wait_for_outputs, if_pos hts]
    exact waitLoop_no_timeout tid ts polls interval fuel 0 0
  · intro ts polls interval dl now i fuel hle
    rw [waitLoop_succ, show deadlinePassed (some dl) now = true from by
      simp [deadlinePassed, hle]]
    simp
  · intro ts polls interval fuel hts
    simp only [wait_for_outputs]
    rw [if_neg (by omega : ¬ ts ≤ 0)]

/-- Witness for C2: a first-poll success, a passed deadline (raised
even though the backend reports running), and an 805 failure envelope
with node and message. -/
theorem C2_wait_for_outputs_witness :
    wait_for_outputs "t" 5 pollsOk 1 1 = .ok [Json.obj [("fileType", Json.str "mp3")]] ∧
    waitLoop "t" 5 pollsRunning 1 (some 5) 6 0 1 = .err (rhTimeoutErr 5 "t") ∧
    waitLoop "t" 0 pollsFailed 1 none 0 0 1 =
      .err (rhTaskFailedErr "t" (some (.str "33")) (some (.str "oom"))) := by
  refine ⟨?_, ?_, ?_⟩
  · exact (C2_wait_for_outputs "t").1 5 pollsOk 1 0
      [Json.obj [("fileType", Json.str "mp3")]] rfl rfl
  · exact (C2_wait_for_outputs "t").2.2.2.2.2.1 5 pollsRunning 1 5 6 0 0 (by norm_num)
  · exact (C2_wait_for_outputs "t").2.2.1 0 pollsFailed 1 none 0 0 0
      [("failedReason", .obj [("node_name", .str "33"), ("exception_message", .str "oom")])]
      [("node_name", .str "33"), ("exception_message", .str "oom")] rfl rfl rfl rfl

/-- A language enum's value string parses back to the member. -/
theorem languageOfValue_val (l : LanguageEnum) : languageOfValue l.val = some l := by
  cases l <;> rfl

/-- The record stored for the updated task after update_task is the
keyword fold. -/
theorem lookupTask_update_self (st : TMState) (tid : String) (t : TaskRec)
    (kw : List (String × PyVal)) (h : lookupTask st.tasks tid = some t) :
    lookupTask (update_task st tid kw).2.tasks tid = some (applyKwargs t kw) := by
  have hd : dictGet st.tasks tid = some t := h
  rw [update_task_found st tid t kw h]
  show lookupTask (save_intermediate _ tid).tasks tid = _
  rw [save_intermediate_tasks]
  show dictGet (dictSetExisting st.tasks tid (applyKwargs t kw)) tid = _
  rw [dictGet_set, if_pos rfl, hd]
  rfl

/-- generate_audio in the ready scenario (task present with a parseable
language and a non-empty voice text, no language or text override, a
caller-supplied reference payload): it reduces to the GENERATING_AUDIO
transition followed by the bounded or unbounded job wait. -/
theorem generate_audio_ready (env : MegaEnv) (timeout_sec : Int) (st : TMState)
    (tid : String) (task : TaskRec) (rb : Bytes) (l : LanguageEnum) (vt : String)
    (h1 : get_task st tid = some task)
    (hlang : lookupField task "language" = some (.lang l))
    (htext : lookupField task "voice_text" = some (.str vt))
    (hvt : ¬ pyStrip vt = "") :
    generate_audio env timeout_sec st tid none none (some rb) =
      (let st2 := (update_task st tid (gaStartKwargs l)).2
       if 0 < timeout_sec then
         match env.jobSeconds with
         | some d =>
             if (d : Int) ≤ timeout_sec then ga_finish env st2 tid env.jobResult
             else
               (.ret (.error (megaTimeoutErr timeout_sec)),
                fail_task st2 tid (megaTimeoutErr timeout_sec).code
                  (megaTimeoutErr timeout_sec).message,
                { jobSubmitted := true, cancelled := true
                , drainAttached := true, uploadedToStorage := false })
         | none =>
             (.ret (.error (megaTimeoutErr timeout_sec)),
              fail_task st2 tid (megaTimeoutErr timeout_sec).code
                (megaTimeoutErr timeout_sec).message,
              { jobSubmitted := true, cancelled := true
              , drainAttached := true, uploadedToStorage := false })
       else
         match env.jobSeconds with
         | some _ => ga_finish env st2 tid env.jobResult
         | none =>
             (.hangs, st2,
              { jobSubmitted := true, cancelled := false
              , drainAttached := false, uploadedToStorage := false })) := by
  simp only [generate_audio, h1, hlang, htext, languageOfValue_val, Option.getD_some]
  rw [if_neg hvt]

/-- Transport of key-distinctness through an evaluated key list. -/
theorem nodup_keys_of (kws : List (String × PyVal)) (keys : List String)
    (h : kws.map Prod.fst = keys) (hnd : keys.Nodup) : (kws.map Prod.fst).Nodup :=
  h ▸ hnd

/-- C3: in generate_audio, a zero TTS timeout waits without bound on
the speech-cloning job (hanging if it never finishes, processing it
whenever it does); with a positive timeout a job that has not finished
within it is cancelled with the drain done-callback attached (so its
eventual completion or exception cannot surface), the task is marked
FAILED with error code MEGA_TTS3_TIMEOUT and the timeout error is
raised; on success within the timeout the duration is probed, the
artifact is uploaded to object storage and the task transitions to
AUDIO_READY; the drain callback consumes every outcome. -/
theorem C3_generate_audio_timeout (env : MegaEnv) (timeout_sec : Int) (st : TMState)
    (tid : String) (task : TaskRec) (rb : Bytes) (l : LanguageEnum) (vt : String)
    (h1 : get_task st tid = some task)
    (hlang : lookupField task "language" = some (.lang l))
    (htext : lookupField task "voice_text" = some (.str vt))
    (hvt : ¬ pyStrip vt = "")
    (hstatus : hasattrTask task "status" = true)
    (herrc : hasattrTask task "error_code" = true)
    (haurl : hasattrTask task "audio_url" = true)
    (hadur : hasattrTask task "audio_duration_sec" = true) :
    (timeout_sec = 0 → env.jobSeconds = none →
      generate_audio env timeout_sec st tid none none (some rb) =
        (.hangs, (update_task st tid (gaStartKwargs l)).2,
         { jobSubmitted := true, cancelled := false
         , drainAttached := false, uploadedToStorage := false })) ∧
    (timeout_sec = 0 → ∀ d, env.jobSeconds = some d →
      generate_audio env timeout_sec st tid none none (some rb) =
        ga_finish env (update_task st tid (gaStartKwargs l)).2 tid env.jobResult) ∧
    (0 < timeout_sec →
      (env.jobSeconds = none ∨ ∃ d, env.jobSeconds = some d ∧ timeout_sec < (d : Int)) →
      (generate_audio env timeout_sec st tid none none (some rb)).1 =
        .ret (.error (megaTimeoutErr timeout_sec)) ∧
      (generate_audio env timeout_sec st tid none none (some rb)).2.2.cancelled = true ∧
      (generate_audio env timeout_sec st tid none none (some rb)).2.2.drainAttached = true ∧
      (generate_audio env timeout_sec st tid none none (some rb)).2.2.uploadedToStorage = false ∧
      ∃ tf, lookupTask
          (generate_audio env timeout_sec st tid none none (some rb)).2.1.tasks tid = some tf ∧
        lookupField tf "status" = some (.status .failed) ∧
        lookupField tf "error_code" = some (.str "MEGA_TTS3_TIMEOUT")) ∧
    (0 < timeout_sec → ∀ d r, env.jobSeconds = some d → (d : Int) ≤ timeout_sec →
      env.jobResult = .ok r →
      (generate_audio env timeout_sec st tid none none (some rb)).1 =
        .ret (.ok { task_id := tid
                  , audio_url := env.uploadedUrl
                  , audio_duration_sec := env.probedDuration r.audio_bytes
                  , tts_engine_used := .mega_tts3
                  , fallback_used := false }) ∧
      (generate_audio env timeout_sec st tid none none (some rb)).2.2.uploadedToStorage = true ∧
      ∃ tr, lookupTask
          (generate_audio env timeout_sec st tid none none (some rb)).2.1.tasks tid = some tr ∧
        lookupField tr "status" = some (.status .audio_ready) ∧
        lookupField tr "audio_url" = some (.str env.uploadedUrl) ∧
        lookupField tr "audio_duration_sec" =
          some (.rat (env.probedDuration r.audio_bytes))) ∧
    (∀ jr : Except AppErr MegaOk, drain_background_task jr = none) := by
  have hred := generate_audio_ready env timeout_sec st tid task rb l vt h1 hlang htext hvt
  have h1' : lookupTask st.tasks tid = some task := h1
  have h2 : lookupTask (update_task st tid (gaStartKwargs l)).2.tasks tid =
      some (applyKwargs task (gaStartKwargs l)) :=
    lookupTask_update_self st tid task (gaStartKwargs l) h1'
  have hattr2 : ∀ k, hasattrTask (applyKwargs task (gaStartKwargs l)) k = hasattrTask task k :=
    fun k => hasattr_applyKwargs _ _ _
  refine ⟨?_, ?_, ?_, ?_, fun jr => by cases jr <;> rfl⟩
  · intro hts hjs
    subst hts
    rw [hred]
    simp only [hjs, if_neg (by norm_num : ¬ (0 : Int) < 0)]
  · intro hts d hjd
    subst hts
    rw [hred]
    simp only [hjd, if_neg (by norm_num : ¬ (0 : Int) < 0)]
  · intro hts hcase
    have hfail : ∃ tf,
        lookupTask (fail_task (update_task st tid (gaStartKwargs l)).2 tid
          (megaTimeoutErr timeout_sec).code (megaTimeoutErr timeout_sec).message).tasks tid =
          some tf ∧
        lookupField tf "status" = some (.status .failed) ∧
        lookupField tf "error_code" = some (.str "MEGA_TTS3_TIMEOUT") := by
      refine ⟨applyKwargs (applyKwargs task (gaStartKwargs l))
        [ ("status", .status .failed)
        , ("current_step", .str "fail")
        , ("error", .str (megaTimeoutErr timeout_sec).message)
        , ("error_code", .str (megaTimeoutErr timeout_sec).code) ], ?_, ?_, ?_⟩
      · exact lookupTask_update_self _ tid _ _ h2
      · rw [lookupField_applyKwargs_mem _ _ ("status", .status .failed)
          (by simp) (by simp)]
        rw [if_pos (by rw [hattr2]; exact hstatus)]
      · rw [lookupField_applyKwargs_mem _ _
          ("error_code", .str (megaTimeoutErr timeout_sec).code)
          (by simp) (by simp)]
        rw [if_pos (by rw [hattr2]; exact herrc)]
        rfl
    rw [hred]
    rcases hcase with hjs | ⟨d, hjd, hlt⟩
    · simp only [hjs, if_pos hts]
      exact ⟨trivial, trivial, trivial, trivial, hfail⟩
    · simp only [hjd, if_pos hts, if_neg (by omega : ¬ (d : Int) ≤ timeout_sec)]
      exact ⟨trivial, trivial, trivial, trivial, hfail⟩
  · intro hts d r hjd hle hres
    have hready : ∃ tr,
        lookupTask ((update_task (update_task st tid (gaStartKwargs l)).2 tid
          [ ("status", .status .audio_ready)
          , ("current_step", .str "audio ready")
          , ("progress", .rat 72)
          , ("audio_url", .str env.uploadedUrl)
          , ("final_audio_url", .str env.uploadedUrl)
          , ("audio_duration_sec", .rat (env.probedDuration r.audio_bytes))
          , ("tts_engine_used", .tts .mega_tts3)
          , ("audio_source", .audioSource .existing_generated)
          , ("comfy_prompt_id", .str r.rh_task_id)
          , ("runninghub_audio_task_id", .str r.rh_task_id) ]).2).tasks tid = some tr ∧
        lookupField tr "status" = some (.status .audio_ready) ∧
        lookupField tr "audio_url" = some (.str env.uploadedUrl) ∧
        lookupField tr "audio_duration_sec" =
          some (.rat (env.probedDuration r.audio_bytes)) := by
      refine ⟨applyKwargs (applyKwargs task (gaStartKwargs l))
        [ ("status", .status .audio_ready)
        , ("current_step", .str "audio ready")
        , ("progress", .rat 72)
        , ("audio_url", .str env.uploadedUrl)
        , ("final_audio_url", .str env.uploadedUrl)
        , ("audio_duration_sec", .rat (env.probedDuration r.audio_bytes))
        , ("tts_engine_used", .tts .mega_tts3)
        , ("audio_source", .audioSource .existing_generated)
        , ("comfy_prompt_id", .str r.rh_task_id)
        , ("runninghub_audio_task_id", .str r.rh_task_id) ], ?_, ?_, ?_, ?_⟩
      · exact lookupTask_update_self _ tid _ _ h2
      · rw [lookupField_applyKwargs_mem _ _ ("status", .status .audio_ready)
          (by simp) (by simp)]
        rw [if_pos (by rw [hattr2]; exact hstatus)]
      · rw [lookupField_applyKwargs_mem _ _ ("audio_url", .str env.uploadedUrl)
          (by simp) (by simp)]
        rw [if_pos (by rw [hattr2]; exact haurl)]
      · rw [lookupField_applyKwargs_mem _ _
          ("audio_duration_sec", .rat (env.probedDuration r.audio_bytes))
          (by simp) (by simp)]
        rw [if_pos (by rw [hattr2]; exact hadur)]
    rw [hred]
    simp only [hjd, if_pos hts, if_pos hle, hres, ga_finish]
    exact ⟨trivial, trivial, hready⟩

/-- Witness for C3: a fast job under a 10s timeout reaches AUDIO_READY
with the uploaded URL and probed duration; a never-finishing job under
a 5s timeout is cancelled. -/
theorem C3_generate_audio_timeout_witness :
    (generate_audio envW 10 wStateVT "t1" none none (some [9])).1 =
      .ret (.ok { task_id := "t1"
                , audio_url := "https://tos/audio_t1.flac"
                , audio_duration_sec := 7
                , tts_engine_used := .mega_tts3
                , fallback_used := false }) ∧
    (generate_audio envW 10 wStateVT "t1" none none (some [9])).2.2.uploadedToStorage = true ∧
    (generate_audio envHang 5 wStateVT "t1" none none (some [9])).2.2.cancelled = true ∧
    (generate_audio envHang 5 wStateVT "t1" none none (some [9])).2.2.drainAttached = true :=
  have hok := (C3_generate_audio_timeout envW 10 wStateVT "t1" wTaskVT [9] .zh "hello"
    rfl rfl rfl (by decide) rfl rfl rfl rfl).2.2.2.1
    (by norm_num) 1 { audio_bytes := [2, 3], audio_filename := "out.flac", rh_task_id := "rh1" }
    rfl (by norm_num) rfl
  have hto := (C3_generate_audio_timeout envHang 5 wStateVT "t1" wTaskVT [9] .zh "hello"
    rfl rfl rfl (by decide) rfl rfl rfl rfl).2.2.1
    (by norm_num) (Or.inl rfl)
  ⟨hok.1, hok.2.1, hto.2.1, hto.2.2.1⟩

/-- C6 counterexample: with a default reference audio configured in the
environment, generate_audio without a caller-supplied payload still
fails with MEGA_TTS3_REFERENCE_AUDIO_REQUIRED, refuting the claim that
this failure occurs exactly when no default is configured. -/
theorem C6_reference_required_counterexample :
    envW.defaultReference = some [0] ∧
    (generate_audio envW 0 wStateVT "t1" none none none).1 =
      .ret (.error { code := "MEGA_TTS3_REFERENCE_AUDIO_REQUIRED"
                   , message := "please upload reference audio first" }) ∧
    (generate_audio envW 0 wStateVT "t1" none none none).2.2 = noEffects := by
  refine ⟨rfl, ?_, ?_⟩ <;> rfl

/-- C6 amended: generate_audio on a task with a non-empty voice text
and no caller-supplied reference-audio payload always fails with
MEGA_TTS3_REFERENCE_AUDIO_REQUIRED — whether or not a default
reference audio is configured, because the TaskManager check precedes
the service-level default fallback — leaving the state untouched and
contacting no external service; the fallback itself exists at the
service level (megaResolveReference accepts a configured default). -/
theorem C6_reference_required (env : MegaEnv) (timeout_sec : Int) (st : TMState)
    (tid : String) (task : TaskRec) (l : LanguageEnum) (vt : String)
    (h1 : get_task st tid = some task)
    (hlang : lookupField task "language" = some (.lang l))
    (htext : lookupField task "voice_text" = some (.str vt))
    (hvt : ¬ pyStrip vt = "") :
    generate_audio env timeout_sec st tid none none none =
      (.ret (.error { code := "MEGA_TTS3_REFERENCE_AUDIO_REQUIRED"
                    , message := "please upload reference audio first" }),
       st, noEffects) ∧
    (∀ d, env.defaultReference = some d →
      megaResolveReference env.defaultReference none = .ok d) := by
  constructor
  · simp only [generate_audio, h1, hlang, htext, languageOfValue_val, Option.getD_some]
    rw [if_neg hvt]
  · intro d hd
    simp [megaResolveReference, hd]

/-- Witness for C6 amended at a concrete task with a voice text and an
environment with no default configured. -/
theorem C6_reference_required_witness :
    generate_audio envHang 0 wStateVT "t1" none none none =
      (.ret (.error { code := "MEGA_TTS3_REFERENCE_AUDIO_REQUIRED"
                    , message := "please upload reference audio first" }),
       wStateVT, noEffects) :=
  (C6_reference_required envHang 0 wStateVT "t1" wTaskVT .zh "hello"
    rfl rfl rfl (by decide)).1

/-- C7 counterexample: after a timed-out run, the temporary run
directory d1 still exists on disk, nothing was cached for the prompt
id, and even an explicit cleanup call removes nothing — so the
directory is not deleted when the run fails, contrary to the claim. -/
theorem C7_cleanup_counterexample :
    comfyAfterTimeout.1 =
      .error { code := "COMFY_QUEUE_TIMEOUT"
             , message := "local workflow execution timed out" } ∧
    comfyAfterTimeout.2.fs_dirs = ["d1"] ∧
    dictGet comfyAfterTimeout.2.run_cache "p1" = none ∧
    (cleanup_prompt comfyAfterTimeout.2 "p1").fs_dirs = ["d1"] :=
  ⟨rfl, rfl, rfl, rfl⟩

/-- C7 amended: the per-run temporary directory is deleted only by the
explicit cleanup_prompt call on the successfully cached run; when the
run fails or times out the directory is never removed (only the
staged-file table is cleared in the finally block) and cleanup of that
prompt id is a no-op because nothing was cached. -/
theorem C7_cleanup_scoped (st : ComfyState) (pid dir : String) (files : List String)
    (hfresh : dictGet st.run_cache pid = none) :
    ((queue_prompt (.ok files) pid dir st).1 = .ok pid ∧
     dir ∈ (queue_prompt (.ok files) pid dir st).2.fs_dirs ∧
     dictGet (queue_prompt (.ok files) pid dir st).2.run_cache pid =
       some { run_dir := dir, files := files } ∧
     (cleanup_prompt (queue_prompt (.ok files) pid dir st).2 pid).fs_dirs =
       (st.fs_dirs ++ [dir]).filter (fun d => d ≠ dir) ∧
     dir ∉ (cleanup_prompt (queue_prompt (.ok files) pid dir st).2 pid).fs_dirs ∧
     (queue_prompt (.ok files) pid dir st).2.staged_files = []) ∧
    (∀ msg,
     (queue_prompt (.fail msg) pid dir st).1 =
       .error { code := "COMFY_WORKFLOW_ERROR"
              , message := "local workflow execution failed: " ++ msg } ∧
     dir ∈ (queue_prompt (.fail msg) pid dir st).2.fs_dirs ∧
     dictGet (queue_prompt (.fail msg) pid dir st).2.run_cache pid = none ∧
     cleanup_prompt (queue_prompt (.fail msg) pid dir st).2 pid =
       (queue_prompt (.fail msg) pid dir st).2 ∧
     (queue_prompt (.fail msg) pid dir st).2.staged_files = []) ∧
    ((queue_prompt .timeout pid dir st).1 =
       .error { code := "COMFY_QUEUE_TIMEOUT"
              , message := "local workflow execution timed out" } ∧
     dir ∈ (queue_prompt .timeout pid dir st).2.fs_dirs ∧
     dictGet (queue_prompt .timeout pid dir st).2.run_cache pid = none ∧
     cleanup_prompt (queue_prompt .timeout pid dir st).2 pid =
       (queue_prompt .timeout pid dir st).2 ∧
     (queue_prompt .timeout pid dir st).2.staged_files = []) := by
  have hgetOk : dictGet (queue_prompt (.ok files) pid dir st).2.run_cache pid =
      some { run_dir := dir, files := files } := by
    show dictGet (st.run_cache ++ [(pid, { run_dir := dir, files := files })]) pid = _
    rw [dictGet_append_none _ _ _ hfresh]
    simp [dictGet]
  refine ⟨⟨rfl, by simp [queue_prompt], hgetOk, ?_, ?_, rfl⟩, ?_, ?_⟩
  · simp only [cleanup_prompt, hgetOk]
    rfl
  · simp only [cleanup_prompt, hgetOk]
    intro hmem
    have := (List.mem_filter.mp hmem).2
    simp at this
  · intro msg
    have hget : dictGet (queue_prompt (.fail msg) pid dir st).2.run_cache pid = none := hfresh
    refine ⟨rfl, by simp [queue_prompt], hget, ?_, rfl⟩
    simp only [cleanup_prompt, hget]
  · have hget : dictGet (queue_prompt .timeout pid dir st).2.run_cache pid = none := hfresh
    refine ⟨rfl, by simp [queue_prompt], hget, ?_, rfl⟩
    simp only [cleanup_prompt, hget]

/-- Witness for C7 amended: the successful run's directory is gone
after the explicit cleanup, the timed-out run's cleanup is a no-op. -/
theorem C7_cleanup_scoped_witness :
    (queue_prompt (RunOutcome.ok ["out.mp4"]) "p1" "d1" comfySt0).1 = .ok "p1" ∧
    (cleanup_prompt (queue_prompt (RunOutcome.ok ["out.mp4"]) "p1" "d1" comfySt0).2
      "p1").fs_dirs = [] ∧
    cleanup_prompt (queue_prompt RunOutcome.timeout "p1" "d1" comfySt0).2 "p1" =
      (queue_prompt RunOutcome.timeout "p1" "d1" comfySt0).2 :=
  have hth := C7_cleanup_scoped comfySt0 "p1" "d1" ["out.mp4"] rfl
  ⟨hth.1.1, hth.1.2.2.2.1, hth.2.2.2.2.2.1⟩
